import Mathlib

/-!
Verification of the retrying query executor and the user repository from
`src/repositories/user.js`.

Modelling conventions (shallow embedding):
- A JavaScript value supplied for `name`, `email` or the user id is modelled
  by `JsVal`: `undefined`, `null`, or a string.  JavaScript truthiness on
  those values is `JsVal.truthy` (undefined, null and the empty string are
  falsy).
- The connection pool is an external collaborator; a run of one repository
  call is parameterised by `pool : Nat → Except ε ρ`, giving the outcome of
  the pool call on each 0-based attempt index (an `Except.error` models a
  rejected `pool.query`, an `Except.ok` a resolved one).  For repository
  methods `ρ` is `List row`: the `rows` array of the pg result object, the
  only part of the result the code reads.
- `queryWithRetry` returns a `RunLog`: the outcome (rows, a thrown error, or
  the JS `undefined` an exhausted-without-iterating loop resolves with),
  the number of pool calls made, and the list of backoff delays (ms) slept,
  in order.
- Each repository method returns a `MethodRun`: its outcome (return value,
  thrown validation error, or rethrown store error), the query requests it
  handed to the executor (SQL text and ordered parameter list), the number
  of pool calls made, and the errors it logged via `console.error`.
-/

/-- A JavaScript value that may appear in `userData.name`, `userData.email`
or as the user id: `undefined`, `null`, or a string. -/
inductive JsVal where
  | undef
  | null
  | str (s : String)
deriving DecidableEq

/-- JavaScript truthiness restricted to `JsVal`: `undefined`, `null` and the
empty string are falsy, every other string is truthy. -/
def JsVal.truthy : JsVal → Bool
  | JsVal.undef => false
  | JsVal.null => false
  | JsVal.str s => !s.isEmpty

/-- The `userData` object passed to `create`/`update`: the `name` and `email`
properties (a missing property is `JsVal.undef`). -/
structure UserData where
  name : JsVal
  email : JsVal
deriving DecidableEq

/-- Outcome of one `queryWithRetry` invocation: a resolved pg result (its
`rows`), a thrown error, or resolution with JS `undefined` (the value the
async function returns when the `for` loop never throws nor returns, i.e.
when it runs zero iterations). -/
inductive RetryOutcome (ε ρ : Type) where
  | result (r : ρ)
  | failed (e : ε)
  | undef
deriving DecidableEq

/-- Observable record of one `queryWithRetry` run: the outcome, how many
`pool.query` calls were made, and the backoff delays (in milliseconds)
slept between attempts, in order. -/
structure RunLog (ε ρ : Type) where
  outcome : RetryOutcome ε ρ
  calls : Nat
  delays : List Nat
deriving DecidableEq

/-- Embeds the `for (let i = 0; i < maxRetries; i++)` loop of
`queryWithRetry` (user.js lines 17-27), starting at loop index `i` with
`remaining` iterations still allowed by the loop guard.  On success the pool
result is returned at once; on failure the error is rethrown when
`i === maxRetries - 1`, otherwise the loop sleeps `1000 * (i + 1)` ms and
continues. -/
def retryFrom (pool : Nat → Except ε ρ) (maxRetries : Int) :
    Nat → Nat → RunLog ε ρ
  | 0, _ => ⟨RetryOutcome.undef, 0, []⟩
  | remaining + 1, i =>
    match pool i with
    | Except.ok r => ⟨RetryOutcome.result r, 1, []⟩
    | Except.error e =>
      if (i : Int) = maxRetries - 1 then ⟨RetryOutcome.failed e, 1, []⟩
      else
        let rest := retryFrom pool maxRetries remaining (i + 1)
        ⟨rest.outcome, rest.calls + 1, 1000 * (i + 1) :: rest.delays⟩

/-- Embeds `queryWithRetry(query, params, maxRetries)` (user.js lines
17-27).  `maxRetries` is an `Int` so that non-positive arguments (under
which the JS loop runs zero times) are representable; the loop guard
`i < maxRetries` admits `maxRetries.toNat` iterations.  The SQL text and
parameters are not modelled here because the pool outcome function already
fixes the behaviour of `pool.query` on each attempt.  Repository methods
call this with the JS default `maxRetries = 3`. -/
def queryWithRetry (pool : Nat → Except ε ρ) (maxRetries : Int) : RunLog ε ρ :=
  retryFrom pool maxRetries maxRetries.toNat 0

/-- Outcome of one repository method call: a returned value, a thrown
validation error (the `Error` message string), a rethrown store error, or a
TypeError from reading `.rows` of `undefined` (reachable only if
`queryWithRetry` resolved with `undefined`, which cannot happen at the
default `maxRetries = 3`). -/
inductive MethodOutcome (ε α : Type) where
  | ok (a : α)
  | validationError (msg : String)
  | storeError (e : ε)
  | typeError
deriving DecidableEq

/-- Observable record of one repository method call: its outcome, the query
requests (SQL text, ordered parameter list) handed to the executor, the
number of pool calls made, and the store errors logged with
`console.error` at the repository boundary. -/
structure MethodRun (ε α : Type) where
  result : MethodOutcome ε α
  queries : List (String × List JsVal)
  storeCalls : Nat
  logged : List ε
deriving DecidableEq

/-- Embeds the shared `try { await queryWithRetry(...) } catch (error)
{ console.error(...); throw error; }` shape of every repository method:
run the executor at the JS default `maxRetries = 3`, apply `k` to the rows
on success, and log-then-rethrow the error on failure. -/
def runStore (pool : Nat → Except ε (List ρ)) (sql : String)
    (ps : List JsVal) (k : List ρ → α) : MethodRun ε α :=
  let log := queryWithRetry pool 3
  match log.outcome with
  | RetryOutcome.result rows => ⟨MethodOutcome.ok (k rows), [(sql, ps)], log.calls, []⟩
  | RetryOutcome.failed e => ⟨MethodOutcome.storeError e, [(sql, ps)], log.calls, [e]⟩
  | RetryOutcome.undef => ⟨MethodOutcome.typeError, [(sql, ps)], log.calls, []⟩

namespace UserRepository

/-- Embeds `findById(userId)` (user.js lines 35-44).  `result.rows[0] || null`
is modelled by `List.head?`: `some row` for a first row, `none` for the JS
`null` returned when zero rows match. -/
def findById (pool : Nat → Except ε (List ρ)) (userId : JsVal) :
    MethodRun ε (Option ρ) :=
  runStore pool "SELECT * FROM users WHERE id = $1" [userId] List.head?

/-- Embeds `findAll()` (user.js lines 50-59): returns the whole `rows`
array. -/
def findAll (pool : Nat → Except ε (List ρ)) : MethodRun ε (List ρ) :=
  runStore pool "SELECT * FROM users" [] id

/-- Embeds `create(userData)` (user.js lines 66-78).  The guard
`!userData || !userData.name || !userData.email` throws before any store
access; otherwise an INSERT is issued with `[name, email]` and
`result.rows[0]` is returned (`none` models the JS `undefined` when the
store returns zero rows). -/
def create (pool : Nat → Except ε (List ρ)) (userData : Option UserData) :
    MethodRun ε (Option ρ) :=
  match userData with
  | none => ⟨MethodOutcome.validationError "User data must include name and email", [], 0, []⟩
  | some u =>
    if !u.name.truthy || !u.email.truthy then
      ⟨MethodOutcome.validationError "User data must include name and email", [], 0, []⟩
    else
      runStore pool "INSERT INTO users (name, email) VALUES ($1, $2) RETURNING *"
        [u.name, u.email] List.head?

/-- Embeds the dynamic update builder (user.js lines 92-106): starting from
`updates = []`, `values = []`, `paramCount = 1`, push `name = $n` when
`userData.name !== undefined`, then `email = $n` when
`userData.email !== undefined`, each push incrementing `paramCount`; finally
append `userId` to the values.  Returns (updates, values, final
paramCount). -/
def buildUpdate (userId : JsVal) (u : UserData) :
    List String × List JsVal × Nat :=
  let updates0 : List String := []
  let values0 : List JsVal := []
  let paramCount0 : Nat := 1
  let t1 :=
    if u.name ≠ JsVal.undef then
      (updates0 ++ ["name = $" ++ toString paramCount0],
       values0 ++ [u.name], paramCount0 + 1)
    else (updates0, values0, paramCount0)
  let t2 :=
    if u.email ≠ JsVal.undef then
      (t1.1 ++ ["email = $" ++ toString t1.2.2],
       t1.2.1 ++ [u.email], t1.2.2 + 1)
    else t1
  (t2.1, t2.2.1 ++ [userId], t2.2.2)

/-- Renders the UPDATE statement text of user.js line 106 from the built SET
clauses and the final `paramCount`. -/
def updateSqlText (updates : List String) (paramCount : Nat) : String :=
  "UPDATE users SET " ++ String.intercalate ", " updates ++
    " WHERE id = $" ++ toString paramCount ++ " RETURNING *"

/-- Embeds `update(userId, userData)` (user.js lines 86-113).  The guard
`!userData || (!userData.name && !userData.email)` throws before any store
access; otherwise the dynamic UPDATE is built and issued and
`result.rows[0]` is returned (`none` models the JS `undefined` when no row
matched). -/
def update (pool : Nat → Except ε (List ρ)) (userId : JsVal)
    (userData : Option UserData) : MethodRun ε (Option ρ) :=
  match userData with
  | none =>
    ⟨MethodOutcome.validationError
      "User data must include at least name or email to update", [], 0, []⟩
  | some u =>
    if !u.name.truthy && !u.email.truthy then
      ⟨MethodOutcome.validationError
        "User data must include at least name or email to update", [], 0, []⟩
    else
      let b := buildUpdate userId u
      runStore pool (updateSqlText b.1 b.2.2) b.2.1 List.head?

/-- Embeds `delete(userId)` (user.js lines 120-129): a DELETE by id,
returning `result.rows[0]` (`none` models the JS `undefined` when no row
matched). -/
def delete (pool : Nat → Except ε (List ρ)) (userId : JsVal) :
    MethodRun ε (Option ρ) :=
  runStore pool "DELETE FROM users WHERE id = $1 RETURNING *" [userId]
    List.head?

end UserRepository

/-! Helper lemmas shared by the claim theorems. -/

/-- One unfolding step of the retry loop when at least one iteration remains. -/
theorem retryFrom_succ (ε ρ : Type) (pool : Nat → Except ε ρ) (m : Int) (n i : Nat) :
    retryFrom pool m (n + 1) i =
      (match pool i with
      | Except.ok r => ⟨RetryOutcome.result r, 1, []⟩
      | Except.error e =>
        if (i : Int) = m - 1 then ⟨RetryOutcome.failed e, 1, []⟩
        else
          let rest := retryFrom pool m n (i + 1)
          ⟨rest.outcome, rest.calls + 1, 1000 * (i + 1) :: rest.delays⟩) := rfl

/-- Closed-form behaviour of `queryWithRetry` at the JS default
`maxRetries = 3`, by cases on the outcomes of the three pool attempts. -/
theorem queryWithRetry_three (ε ρ : Type) (pool : Nat → Except ε ρ) :
    queryWithRetry pool 3 =
      (match pool 0, pool 1, pool 2 with
      | Except.ok r, _, _ => ⟨RetryOutcome.result r, 1, []⟩
      | Except.error _, Except.ok r, _ => ⟨RetryOutcome.result r, 2, [1000]⟩
      | Except.error _, Except.error _, Except.ok r =>
          ⟨RetryOutcome.result r, 3, [1000, 2000]⟩
      | Except.error _, Except.error _, Except.error e =>
          ⟨RetryOutcome.failed e, 3, [1000, 2000]⟩) := by
  show retryFrom pool 3 (2 + 1) 0 = _
  rw [retryFrom_succ]
  cases hp0 : pool 0 with
  | ok r => simp
  | error e0 =>
    rw [show retryFrom pool 3 (1 + 1) 1 = _ from retryFrom_succ ε ρ pool 3 1 1]
    cases hp1 : pool 1 with
    | ok r => simp
    | error e1 =>
      rw [show retryFrom pool 3 (0 + 1) 2 = _ from retryFrom_succ ε ρ pool 3 0 2]
      cases hp2 : pool 2 with
      | ok r => simp
      | error e2 => simp

/-- When the loop still has iterations left and the loop guard index
arithmetic is consistent (`i + remaining = maxRetries`), the loop either
returns rows or throws: it never falls through to the implicit
`undefined`. -/
theorem retryFrom_ne_undef (ε ρ : Type) (pool : Nat → Except ε ρ) (m : Int) :
    ∀ (remaining i : Nat), 1 ≤ remaining → (i : Int) + (remaining : Int) = m →
      (retryFrom pool m remaining i).outcome ≠ RetryOutcome.undef := by
  intro remaining
  induction remaining with
  | zero => intro i h _; omega
  | succ n ih =>
    intro i _ hsum
    rw [retryFrom_succ]
    cases hp : pool i with
    | ok r => simp
    | error e =>
      by_cases hl : (i : Int) = m - 1
      · simp [hl]
      · have hn : 1 ≤ n := by omega
        have hsum2 : ((i + 1 : Nat) : Int) + (n : Int) = m := by
          push_cast at hsum ⊢; omega
        simpa [hl] using ih (i + 1) hn hsum2

/-- A truthy `JsVal` is in particular not `undefined`. -/
theorem JsVal.truthy_ne_undef (v : JsVal) (h : v.truthy = true) :
    v ≠ JsVal.undef := by
  intro hv; subst hv; simp [JsVal.truthy] at h

/-! Claim theorems. -/

/-- C1: for every sequence of pool-call outcomes, `queryWithRetry` at
`maxAttempts = 3` returns the result of the first successful pool call
immediately, making exactly `k + 1` pool calls when the first success is
attempt `k`; and when all 3 attempts fail it makes exactly 3 pool calls and
propagates the final attempt's error unchanged. -/
theorem C1_queryWithRetry_first_success_or_final_error
    (ε ρ : Type) (pool : Nat → Except ε ρ) (r : ρ) (e0 e1 e2 : ε) :
    (pool 0 = Except.ok r →
      (queryWithRetry pool 3).outcome = RetryOutcome.result r ∧
      (queryWithRetry pool 3).calls = 1) ∧
    (pool 0 = Except.error e0 → pool 1 = Except.ok r →
      (queryWithRetry pool 3).outcome = RetryOutcome.result r ∧
      (queryWithRetry pool 3).calls = 2) ∧
    (pool 0 = Except.error e0 → pool 1 = Except.error e1 → pool 2 = Except.ok r →
      (queryWithRetry pool 3).outcome = RetryOutcome.result r ∧
      (queryWithRetry pool 3).calls = 3) ∧
    (pool 0 = Except.error e0 → pool 1 = Except.error e1 → pool 2 = Except.error e2 →
      (queryWithRetry pool 3).outcome = RetryOutcome.failed e2 ∧
      (queryWithRetry pool 3).calls = 3) := by
  rw [queryWithRetry_three]
  refine ⟨?_, ?_, ?_, ?_⟩
  · intro h0; simp [h0]
  · intro h0 h1; simp [h0, h1]
  · intro h0 h1 h2; simp [h0, h1, h2]
  · intro h0 h1 h2; simp [h0, h1, h2]

/-- Witness for C1: a pool that fails on every attempt makes exactly 3 calls
and surfaces the final error. -/
theorem C1_witness :
    (queryWithRetry (fun _ => (Except.error 7 : Except Nat Nat)) 3).outcome
        = RetryOutcome.failed 7 ∧
    (queryWithRetry (fun _ => (Except.error 7 : Except Nat Nat)) 3).calls = 3 :=
  (C1_queryWithRetry_first_success_or_final_error Nat Nat
    (fun _ => Except.error 7) 0 7 7 7).2.2.2 rfl rfl rfl

/-- C7: each failed non-last attempt with 0-based index `i` sleeps exactly
`1000 * (i + 1)` milliseconds before the next attempt, so a 3-attempt run
that exhausts all attempts sleeps 1000 ms then 2000 ms, with no delay after
the final attempt. -/
theorem C7_backoff_delays (ε ρ : Type) (pool : Nat → Except ε ρ)
    (r : ρ) (e0 e1 : ε) :
    (pool 0 = Except.ok r → (queryWithRetry pool 3).delays = []) ∧
    (pool 0 = Except.error e0 → pool 1 = Except.ok r →
      (queryWithRetry pool 3).delays = [1000 * (0 + 1)]) ∧
    (pool 0 = Except.error e0 → pool 1 = Except.error e1 →
      (queryWithRetry pool 3).delays = [1000 * (0 + 1), 1000 * (1 + 1)]) := by
  rw [queryWithRetry_three]
  refine ⟨?_, ?_, ?_⟩
  · intro h0; simp [h0]
  · intro h0 h1; simp [h0, h1]
  · intro h0 h1
    cases h2 : pool 2 <;> simp [h0, h1, h2]

/-- Witness for C7: an exhausted 3-attempt run sleeps 1 s then 2 s. -/
theorem C7_witness :
    (queryWithRetry (fun _ => (Except.error 5 : Except Nat Nat)) 3).delays
      = [1000 * (0 + 1), 1000 * (1 + 1)] :=
  (C7_backoff_delays Nat Nat (fun _ => Except.error 5) 0 5 5).2.2 rfl rfl

/-- C9: called with a non-positive `maxRetries`, the loop body never runs
and `queryWithRetry` resolves with `undefined` after zero pool calls —
neither rows nor an error — so the rows-or-final-error contract holds only
under the precondition `maxRetries ≥ 1`, and indeed for `maxRetries ≥ 1`
the outcome is never `undefined`. -/
theorem C9_nonpositive_maxRetries_resolves_undefined
    (ε ρ : Type) (pool : Nat → Except ε ρ) (maxRetries : Int) :
    (maxRetries ≤ 0 →
      (queryWithRetry pool maxRetries).outcome = RetryOutcome.undef ∧
      (queryWithRetry pool maxRetries).calls = 0) ∧
    (1 ≤ maxRetries →
      (queryWithRetry pool maxRetries).outcome ≠ RetryOutcome.undef) := by
  constructor
  · intro h
    have hz : maxRetries.toNat = 0 := by omega
    rw [queryWithRetry, hz]
    exact ⟨rfl, rfl⟩
  · intro h
    rw [queryWithRetry]
    apply retryFrom_ne_undef
    · omega
    · push_cast; omega

/-- Witness for C9: at `maxRetries = 0` an always-failing pool is never
called and the call resolves with `undefined`; at the default
`maxRetries = 3` the outcome is not `undefined`. -/
theorem C9_witness :
    ((queryWithRetry (fun _ => (Except.error 9 : Except Nat Nat)) 0).outcome
        = RetryOutcome.undef ∧
     (queryWithRetry (fun _ => (Except.error 9 : Except Nat Nat)) 0).calls = 0) ∧
    (queryWithRetry (fun _ => (Except.error 9 : Except Nat Nat)) 3).outcome
        ≠ RetryOutcome.undef :=
  ⟨(C9_nonpositive_maxRetries_resolves_undefined Nat Nat
      (fun _ => Except.error 9) 0).1 (by decide),
   (C9_nonpositive_maxRetries_resolves_undefined Nat Nat
      (fun _ => Except.error 9) 3).2 (by decide)⟩

/-- C2: for every `update` input that passes validation, the SET clause has
one assignment per non-undefined field (name before email), with
placeholder indices contiguous from `$1` and strictly increasing (SET
assignment `j` uses placeholder `j + 1`), the WHERE placeholder index is
the number of SET clauses plus 1, and the id is the final element of the
parameter list. -/
theorem C2_update_builder_invariant (userId : JsVal) (u : UserData)
    (h : u.name.truthy = true ∨ u.email.truthy = true) :
    (UserRepository.buildUpdate userId u).1 =
      List.map (fun p => p.2 ++ " = $" ++ toString (p.1 + 1))
        (List.enum ((if u.name ≠ JsVal.undef then ["name"] else []) ++
                    (if u.email ≠ JsVal.undef then ["email"] else []))) ∧
    (UserRepository.buildUpdate userId u).2.2 =
      ((if u.name ≠ JsVal.undef then ["name"] else []) ++
       (if u.email ≠ JsVal.undef then ["email"] else [])).length + 1 ∧
    (UserRepository.buildUpdate userId u).2.1 =
      ((if u.name ≠ JsVal.undef then [u.name] else []) ++
       (if u.email ≠ JsVal.undef then [u.email] else [])) ++ [userId] := by
  obtain ⟨nm, em⟩ := u
  by_cases hn : nm = JsVal.undef <;> by_cases he : em = JsVal.undef <;>
    simp [UserRepository.buildUpdate, hn, he, List.enum]

/-- Witness for C2: `update(id, with name "A" and email "b")` builds
SET clauses `name = $1, email = $2`, WHERE placeholder `$3`, and parameters
`[name, email, id]`. -/
theorem C2_witness :
    (UserRepository.buildUpdate (JsVal.str "9")
        ⟨JsVal.str "A", JsVal.str "b"⟩).1 = ["name = $1", "email = $2"] ∧
    (UserRepository.buildUpdate (JsVal.str "9")
        ⟨JsVal.str "A", JsVal.str "b"⟩).2.2 = 3 ∧
    (UserRepository.buildUpdate (JsVal.str "9")
        ⟨JsVal.str "A", JsVal.str "b"⟩).2.1
      = [JsVal.str "A", JsVal.str "b", JsVal.str "9"] := by
  simpa using C2_update_builder_invariant (JsVal.str "9")
    ⟨JsVal.str "A", JsVal.str "b"⟩ (Or.inl rfl)

/-- C3: for every `userData` whose `name` or `email` is missing or empty
(falsy), `create` throws the validation error before any store access: it
records zero executor requests and zero pool calls. -/
theorem C3_create_validation_before_store
    (ε ρ : Type) (pool : Nat → Except ε (List ρ)) (u : UserData)
    (h : u.name.truthy = false ∨ u.email.truthy = false) :
    (UserRepository.create pool (some u)
        : MethodRun ε (Option ρ)).result
      = MethodOutcome.validationError "User data must include name and email" ∧
    (UserRepository.create pool (some u)
        : MethodRun ε (Option ρ)).storeCalls = 0 ∧
    (UserRepository.create pool (some u)
        : MethodRun ε (Option ρ)).queries = [] := by
  rcases h with h | h <;> simp [UserRepository.create, h]

/-- Witness for C3: `create` with an empty name and a valid email throws
the validation error with zero store calls. -/
theorem C3_witness :
    (UserRepository.create (fun _ => (Except.error 7 : Except Nat (List Nat)))
        (some ⟨JsVal.str "", JsVal.str "a"⟩)).result
      = MethodOutcome.validationError "User data must include name and email" ∧
    (UserRepository.create (fun _ => (Except.error 7 : Except Nat (List Nat)))
        (some ⟨JsVal.str "", JsVal.str "a"⟩)).storeCalls = 0 ∧
    (UserRepository.create (fun _ => (Except.error 7 : Except Nat (List Nat)))
        (some ⟨JsVal.str "", JsVal.str "a"⟩)).queries = [] :=
  C3_create_validation_before_store Nat Nat (fun _ => Except.error 7)
    ⟨JsVal.str "", JsVal.str "a"⟩ (Or.inl rfl)

/-- Counterexample for C4: with `name` present but empty (`""`) and `email`
undefined, `update` raises the validation error even though one of the two
fields is present, because the guard tests truthiness rather than
presence. -/
theorem C4_counterexample :
    (UserRepository.update (fun _ => (Except.ok [] : Except Nat (List Nat)))
        (JsVal.str "1") (some ⟨JsVal.str "", JsVal.undef⟩)).result
      = MethodOutcome.validationError
          "User data must include at least name or email to update" := rfl

/-- C4 (amended): `update` raises the validation error before any store
access exactly when neither `name` nor `email` is truthy (present and
non-empty); when at least one of the two is truthy, no validation error is
raised. -/
theorem C4_update_validation_truthiness
    (ε ρ : Type) (pool : Nat → Except ε (List ρ)) (userId : JsVal)
    (u : UserData) :
    (u.name.truthy = false ∧ u.email.truthy = false →
      (UserRepository.update pool userId (some u)).result
          = MethodOutcome.validationError
              "User data must include at least name or email to update" ∧
      (UserRepository.update pool userId (some u)).storeCalls = 0 ∧
      (UserRepository.update pool userId (some u)).queries = []) ∧
    ((u.name.truthy = true ∨ u.email.truthy = true) →
      ∀ msg, (UserRepository.update pool userId (some u)).result
          ≠ MethodOutcome.validationError msg) := by
  constructor
  · rintro ⟨hn, he⟩
    simp [UserRepository.update, hn, he]
  · intro h msg
    have hcond : (!u.name.truthy && !u.email.truthy) = false := by
      rcases h with h | h <;> simp [h]
    simp only [UserRepository.update, hcond, Bool.false_eq_true, if_false]
    cases ho : (queryWithRetry pool 3).outcome <;> simp [runStore, ho]

/-- Witness for C4: with neither field supplied the validation error is
raised with zero store calls, and with a truthy name supplied the result is
not that validation error. -/
theorem C4_witness :
    ((UserRepository.update (fun _ => (Except.ok [] : Except Nat (List Nat)))
        (JsVal.str "1") (some ⟨JsVal.undef, JsVal.undef⟩)).result
      = MethodOutcome.validationError
          "User data must include at least name or email to update") ∧
    ((UserRepository.update (fun _ => (Except.ok [] : Except Nat (List Nat)))
        (JsVal.str "1") (some ⟨JsVal.str "A", JsVal.undef⟩)).result
      ≠ MethodOutcome.validationError
          "User data must include at least name or email to update") :=
  ⟨((C4_update_validation_truthiness Nat Nat (fun _ => Except.ok [])
      (JsVal.str "1") ⟨JsVal.undef, JsVal.undef⟩).1 ⟨rfl, rfl⟩).1,
   (C4_update_validation_truthiness Nat Nat (fun _ => Except.ok [])
      (JsVal.str "1") ⟨JsVal.str "A", JsVal.undef⟩).2 (Or.inl rfl)
      "User data must include at least name or email to update"⟩

/-- C5: when the store succeeds with zero rows on any of the three
attempts, `findById` returns the not-found sentinel (`none`, the JS `null`)
rather than throwing; and `findById` throws a store error only when all
three attempts failed, with the rethrown error being the final attempt's
error. -/
theorem C5_findById_notfound_sentinel
    (ε ρ : Type) (pool : Nat → Except ε (List ρ)) (userId : JsVal)
    (e0 e1 : ε) :
    ((pool 0 = Except.ok [] →
       (UserRepository.findById pool userId).result = MethodOutcome.ok none) ∧
     (pool 0 = Except.error e0 → pool 1 = Except.ok [] →
       (UserRepository.findById pool userId).result = MethodOutcome.ok none) ∧
     (pool 0 = Except.error e0 → pool 1 = Except.error e1 →
      pool 2 = Except.ok [] →
       (UserRepository.findById pool userId).result = MethodOutcome.ok none)) ∧
    (∀ e : ε, (UserRepository.findById pool userId).result
        = MethodOutcome.storeError e →
      (∃ a, pool 0 = Except.error a) ∧ (∃ b, pool 1 = Except.error b) ∧
        pool 2 = Except.error e) := by
  constructor
  · refine ⟨?_, ?_, ?_⟩
    · intro h0
      simp [UserRepository.findById, runStore, queryWithRetry_three, h0]
    · intro h0 h1
      simp [UserRepository.findById, runStore, queryWithRetry_three, h0, h1]
    · intro h0 h1 h2
      simp [UserRepository.findById, runStore, queryWithRetry_three, h0, h1, h2]
  · intro e he
    cases h0 : pool 0 with
    | ok r =>
      simp [UserRepository.findById, runStore, queryWithRetry_three, h0] at he
    | error a =>
      cases h1 : pool 1 with
      | ok r =>
        simp [UserRepository.findById, runStore, queryWithRetry_three,
          h0, h1] at he
      | error b =>
        cases h2 : pool 2 with
        | ok r =>
          simp [UserRepository.findById, runStore, queryWithRetry_three,
            h0, h1, h2] at he
        | error c =>
          simp [UserRepository.findById, runStore, queryWithRetry_three,
            h0, h1, h2] at he
          exact ⟨⟨a, rfl⟩, ⟨b, rfl⟩, by rw [he]⟩

/-- Witness for C5: with a store that succeeds with zero rows at once,
`findById` returns the sentinel. -/
theorem C5_witness :
    (UserRepository.findById (fun _ => (Except.ok [] : Except Nat (List Nat)))
        (JsVal.str "1")).result = MethodOutcome.ok none :=
  (C5_findById_notfound_sentinel Nat Nat (fun _ => Except.ok [])
    (JsVal.str "1") 0 0).1.1 rfl

/-- C6: when the store succeeds with zero rows (no row matched the id),
`delete` and `update` (with valid data) return the not-found sentinel
(`none`, the JS `undefined` of `result.rows[0]`) rather than throwing. -/
theorem C6_delete_update_notfound_sentinel
    (ε ρ : Type) (pool : Nat → Except ε (List ρ)) (userId : JsVal)
    (u : UserData) (hvalid : u.name.truthy = true ∨ u.email.truthy = true)
    (h0 : pool 0 = Except.ok []) :
    (UserRepository.delete pool userId).result = MethodOutcome.ok none ∧
    (UserRepository.update pool userId (some u)).result
      = MethodOutcome.ok none := by
  have hcond : (!u.name.truthy && !u.email.truthy) = false := by
    rcases hvalid with h | h <;> simp [h]
  constructor
  · simp [UserRepository.delete, runStore, queryWithRetry_three, h0]
  · simp [UserRepository.update, hcond, runStore, queryWithRetry_three, h0]

/-- Witness for C6: deleting or updating a non-existent id (store succeeds
with zero rows) returns the sentinel. -/
theorem C6_witness :
    (UserRepository.delete (fun _ => (Except.ok [] : Except Nat (List Nat)))
        (JsVal.str "1")).result = MethodOutcome.ok none ∧
    (UserRepository.update (fun _ => (Except.ok [] : Except Nat (List Nat)))
        (JsVal.str "1") (some ⟨JsVal.str "A", JsVal.undef⟩)).result
      = MethodOutcome.ok none :=
  C6_delete_update_notfound_sentinel Nat Nat (fun _ => Except.ok [])
    (JsVal.str "1") ⟨JsVal.str "A", JsVal.undef⟩ (Or.inl rfl) rfl

/-- C8: for every repository operation, when all three pool attempts fail
(the executor exhausts its retries), the method's thrown error is exactly
the final attempt's error object, unchanged, and that same error is what
was logged at the repository boundary. -/
theorem C8_rethrow_unchanged_after_logging
    (ε ρ : Type) (pool : Nat → Except ε (List ρ)) (userId : JsVal)
    (u : UserData) (hname : u.name.truthy = true)
    (hemail : u.email.truthy = true) (e0 e1 e : ε)
    (h0 : pool 0 = Except.error e0) (h1 : pool 1 = Except.error e1)
    (h2 : pool 2 = Except.error e) :
    ((UserRepository.findById pool userId).result = MethodOutcome.storeError e ∧
     (UserRepository.findById pool userId).logged = [e]) ∧
    ((UserRepository.findAll pool).result = MethodOutcome.storeError e ∧
     (UserRepository.findAll pool).logged = [e]) ∧
    ((UserRepository.create pool (some u) : MethodRun ε (Option ρ)).result
        = MethodOutcome.storeError e ∧
     (UserRepository.create pool (some u) : MethodRun ε (Option ρ)).logged
        = [e]) ∧
    ((UserRepository.update pool userId (some u)).result
        = MethodOutcome.storeError e ∧
     (UserRepository.update pool userId (some u)).logged = [e]) ∧
    ((UserRepository.delete pool userId).result = MethodOutcome.storeError e ∧
     (UserRepository.delete pool userId).logged = [e]) := by
  have hc : (!u.name.truthy || !u.email.truthy) = false := by
    simp [hname, hemail]
  have hcond : (!u.name.truthy && !u.email.truthy) = false := by
    simp [hname]
  refine ⟨?_, ?_, ?_, ?_, ?_⟩ <;>
    simp [UserRepository.findById, UserRepository.findAll,
      UserRepository.create, UserRepository.update, UserRepository.delete,
      hc, hcond, runStore, queryWithRetry_three, h0, h1, h2]

/-- Witness for C8: with every pool attempt failing with error 7, each of
the five methods rethrows exactly error 7 and logs exactly error 7. -/
theorem C8_witness :
    ((UserRepository.findById (fun _ => (Except.error 7 : Except Nat (List Nat)))
        (JsVal.str "1")).result = MethodOutcome.storeError 7 ∧
     (UserRepository.findById (fun _ => (Except.error 7 : Except Nat (List Nat)))
        (JsVal.str "1")).logged = [7]) ∧
    ((UserRepository.findAll (fun _ => (Except.error 7 : Except Nat (List Nat)))).result
        = MethodOutcome.storeError 7 ∧
     (UserRepository.findAll (fun _ => (Except.error 7 : Except Nat (List Nat)))).logged
        = [7]) ∧
    ((UserRepository.create (fun _ => (Except.error 7 : Except Nat (List Nat)))
        (some ⟨JsVal.str "A", JsVal.str "b"⟩)).result = MethodOutcome.storeError 7 ∧
     (UserRepository.create (fun _ => (Except.error 7 : Except Nat (List Nat)))
        (some ⟨JsVal.str "A", JsVal.str "b"⟩)).logged = [7]) ∧
    ((UserRepository.update (fun _ => (Except.error 7 : Except Nat (List Nat)))
        (JsVal.str "1") (some ⟨JsVal.str "A", JsVal.str "b"⟩)).result
        = MethodOutcome.storeError 7 ∧
     (UserRepository.update (fun _ => (Except.error 7 : Except Nat (List Nat)))
        (JsVal.str "1") (some ⟨JsVal.str "A", JsVal.str "b"⟩)).logged = [7]) ∧
    ((UserRepository.delete (fun _ => (Except.error 7 : Except Nat (List Nat)))
        (JsVal.str "1")).result = MethodOutcome.storeError 7 ∧
     (UserRepository.delete (fun _ => (Except.error 7 : Except Nat (List Nat)))
        (JsVal.str "1")).logged = [7]) :=
  C8_rethrow_unchanged_after_logging Nat Nat (fun _ => Except.error 7)
    (JsVal.str "1") ⟨JsVal.str "A", JsVal.str "b"⟩ rfl rfl 7 7 7 rfl rfl rfl

/-- C10: validation (truthiness) and SET-clause inclusion (strict
not-undefined) disagree: for a truthy `email` and a defined-but-falsy
`name` (`null` or `""`), `update` passes validation yet the builder emits a
`name = $1` SET assignment whose bound parameter is that falsy value; and
symmetrically, for a truthy `name` and a defined-but-falsy `email` the
builder emits an `email = $2` assignment binding the falsy value. -/
theorem C10_falsy_defined_field_written
    (ε ρ : Type) (pool : Nat → Except ε (List ρ)) (userId : JsVal)
    (nameF email nameT emailF : JsVal)
    (h1 : nameF = JsVal.null ∨ nameF = JsVal.str "")
    (h2 : email.truthy = true)
    (h3 : nameT.truthy = true)
    (h4 : emailF = JsVal.null ∨ emailF = JsVal.str "") :
    ((∀ msg, (UserRepository.update pool userId (some ⟨nameF, email⟩)).result
        ≠ MethodOutcome.validationError msg) ∧
     (UserRepository.buildUpdate userId ⟨nameF, email⟩).1
        = ["name = $1", "email = $2"] ∧
     (UserRepository.buildUpdate userId ⟨nameF, email⟩).2.1
        = [nameF, email, userId]) ∧
    ((∀ msg, (UserRepository.update pool userId (some ⟨nameT, emailF⟩)).result
        ≠ MethodOutcome.validationError msg) ∧
     (UserRepository.buildUpdate userId ⟨nameT, emailF⟩).1
        = ["name = $1", "email = $2"] ∧
     (UserRepository.buildUpdate userId ⟨nameT, emailF⟩).2.1
        = [nameT, emailF, userId]) := by
  have hnfu : nameF ≠ JsVal.undef := by
    rcases h1 with h | h <;> subst h <;> simp
  have hnff : nameF.truthy = false := by
    rcases h1 with h | h <;> subst h <;> rfl
  have hefu : emailF ≠ JsVal.undef := by
    rcases h4 with h | h <;> subst h <;> simp
  have heff : emailF.truthy = false := by
    rcases h4 with h | h <;> subst h <;> rfl
  have henu : email ≠ JsVal.undef := JsVal.truthy_ne_undef email h2
  have hntu : nameT ≠ JsVal.undef := JsVal.truthy_ne_undef nameT h3
  refine ⟨⟨?_, ?_⟩, ?_, ?_⟩
  · intro msg
    have hcond : (!nameF.truthy && !email.truthy) = false := by
      simp [hnff, h2]
    simp only [UserRepository.update, hcond, Bool.false_eq_true, if_false]
    cases ho : (queryWithRetry pool 3).outcome <;> simp [runStore, ho]
  · refine ⟨?_, ?_⟩ <;> simp [UserRepository.buildUpdate, hnfu, henu] <;>
      exact ⟨rfl, rfl⟩
  · intro msg
    have hcond : (!nameT.truthy && !emailF.truthy) = false := by
      simp [h3]
    simp only [UserRepository.update, hcond, Bool.false_eq_true, if_false]
    cases ho : (queryWithRetry pool 3).outcome <;> simp [runStore, ho]
  · refine ⟨?_, ?_⟩ <;> simp [UserRepository.buildUpdate, hntu, hefu] <;>
      exact ⟨rfl, rfl⟩

/-- Witness for C10: with `name` empty and `email` truthy, `update` does
not raise the validation error and the built statement assigns the empty
name via `name = $1`; symmetrically with `email = null` and a truthy
name. -/
theorem C10_witness :
    ((UserRepository.update (fun _ => (Except.ok [] : Except Nat (List Nat)))
        (JsVal.str "1") (some ⟨JsVal.str "", JsVal.str "b"⟩)).result
      ≠ MethodOutcome.validationError
          "User data must include at least name or email to update") ∧
    (UserRepository.buildUpdate (JsVal.str "1")
        ⟨JsVal.str "", JsVal.str "b"⟩).1 = ["name = $1", "email = $2"] ∧
    (UserRepository.buildUpdate (JsVal.str "1")
        ⟨JsVal.str "", JsVal.str "b"⟩).2.1
      = [JsVal.str "", JsVal.str "b", JsVal.str "1"] ∧
    (UserRepository.buildUpdate (JsVal.str "1")
        ⟨JsVal.str "A", JsVal.null⟩).1 = ["name = $1", "email = $2"] ∧
    (UserRepository.buildUpdate (JsVal.str "1")
        ⟨JsVal.str "A", JsVal.null⟩).2.1
      = [JsVal.str "A", JsVal.null, JsVal.str "1"] := by
  have h := C10_falsy_defined_field_written Nat Nat (fun _ => Except.ok [])
    (JsVal.str "1") (JsVal.str "") (JsVal.str "b") (JsVal.str "A") JsVal.null
    (Or.inr rfl) rfl rfl (Or.inl rfl)
  exact ⟨h.1.1 "User data must include at least name or email to update",
    h.1.2.1, h.1.2.2, h.2.2.1, h.2.2.2⟩
